import Mathlib

/-
Shallow embedding of mpld3/_objects.py: the D3Figure / D3Axes / D3Grid /
D3Line2D / D3Text classes that translate a matplotlib figure snapshot into
d3.js rendering instructions.  The matplotlib objects the constructors read
are modelled as plain input records (FigureInput, AxesInput, ...); the string
templates (AXES_TEMPLATE, XGRID_TEMPLATE, LINE_ZOOM, ...) are modelled as
lists of Stmt values, one constructor per emitted template block, carrying
the values interpolated into the template.  The style sheets (the STYLE
templates) are modelled as StyleRule values.  Helper functions that live in
mpld3/_utils.py (color_to_hex, get_dasharray, get_text_coordinates,
get_d3_shape_for_marker) are not part of the given source; where a claim
needs them they are modelled from the spec and marked as such.
-/

namespace Mpld3

/-- Bounding box of an axes in figure fractions: ax.get_position().bounds,
with w = bounds[2] and h = bounds[3]. -/
structure BBox where
  x0 : ℚ
  y0 : ℚ
  w : ℚ
  h : ℚ
deriving DecidableEq

/-- Snapshot of one matplotlib Line2D as read by D3Line2D: get_linestyle()
and get_marker() (None becomes Option.none), get_xydata().tolist(), and the
style attributes read by D3Line2D.style.  The dasharray field carries the
value of get_dasharray(line) (from _utils, not in the given source). -/
structure LineInput where
  linestyle : Option String
  marker : Option String
  xydata : List (ℚ × ℚ)
  color : String
  linewidth : ℚ
  alpha : Option ℚ
  markersize : ℚ
  markerfacecolor : String
  markeredgecolor : String
  markeredgewidth : ℚ
  dasharray : String
deriving DecidableEq

/-- Snapshot of one matplotlib Text as read by D3Text: get_text(), the
coordinates produced by get_text_coordinates (from _utils, not in the given
source, carried as x and y), get_size(), get_color(), get_rotation(). -/
structure TextInput where
  content : String
  x : ℚ
  y : ℚ
  fontsize : ℚ
  color : String
  rotation : ℚ
deriving DecidableEq

/-- Snapshot of one gridline object as read by D3Grid.style: get_color()
(already converted by color_to_hex, which is in _utils, not in the given
source), get_alpha() (None becomes Option.none), and get_dasharray. -/
structure GridlineInput where
  color : String
  alpha : Option ℚ
  dasharray : String
deriving DecidableEq

/-- Snapshot of one matplotlib Axes as read by D3Axes: ax.lines, ax.texts,
the three label/title text objects, get_xlim(), get_ylim(),
get_position().bounds, the per-axis _gridOnMajor flags, the per-axis
gridline lists, the tick label sizes read by D3Axes.style, the lengths of
the unsupported-content collections checked in D3Axes.__init__
(images, collections, containers, artists, patches, tables), and whether
ax.legend_ is not None. -/
structure AxesInput where
  lines : List LineInput
  texts : List TextInput
  xlabel : TextInput
  ylabel : TextInput
  title : TextInput
  xlim : ℚ × ℚ
  ylim : ℚ × ℚ
  bbox : BBox
  xGridOn : Bool
  yGridOn : Bool
  xGridlines : List GridlineInput
  yGridlines : List GridlineInput
  tickLabelSizes : List ℚ
  images : ℕ
  collections : ℕ
  containers : ℕ
  artists : ℕ
  patches : ℕ
  tables : ℕ
  hasLegend : Bool
deriving DecidableEq

/-- Snapshot of one matplotlib Figure as read by D3Figure: get_figwidth(),
get_figheight(), dpi, and fig.axes. -/
structure FigureInput where
  figwidth : ℚ
  figheight : ℚ
  dpi : ℚ
  axes : List AxesInput
deriving DecidableEq

/-- D3Line2D as built by its constructor: lineid is the string
concatenation of the parent axes id and the index passed in (the owning
D3Axes passes the 1-based position of the line). -/
structure D3Line2D where
  lineid : String
  line : LineInput
deriving DecidableEq

/-- D3Text as built by its constructor.  The isYLabel flag records the
object identity test of D3Text.html, self.text is self.ax.yaxis.label,
which holds exactly for the entry built from the y-axis label. -/
structure D3Text where
  text : TextInput
  isYLabel : Bool
deriving DecidableEq

/-- D3Grid as built by its constructor, carrying the axes id (reached via
the parent chain in the source) and the grid-relevant axes state it reads
in html, zoom and style. -/
structure D3Grid where
  axid : String
  xGridOn : Bool
  yGridOn : Bool
  xGridlines : List GridlineInput
  yGridlines : List GridlineInput
deriving DecidableEq

/-- D3Axes as built by its constructor: axid = figid + str(i) for the
1-based index i passed by D3Figure, plus the child element lists and the
axes state read later by html and style. -/
structure D3Axes where
  axid : String
  xlim : ℚ × ℚ
  ylim : ℚ × ℚ
  bbox : BBox
  tickLabelSizes : List ℚ
  lines : List D3Line2D
  texts : List D3Text
  grids : List D3Grid
deriving DecidableEq

/-- D3Figure as built by its constructor.  generate_figid draws a fresh
uuid4 token, an external randomness source, so the figure id is taken here
as an input. -/
structure D3Figure where
  figid : String
  figwidth : ℚ
  figheight : ℚ
  dpi : ℚ
  axes : List D3Axes
deriving DecidableEq

/-- Constructor of D3Line2D: self.lineid = "{0}{1}".format(self.axid, i). -/
def D3Line2D.build (axid : String) (i : ℕ) (line : LineInput) : D3Line2D :=
  { lineid := axid ++ Nat.repr i, line := line }

/-- Constructor of D3Axes: axid = figid + str(i); lines enumerates ax.lines
with D3Line2D(self, line, i + 1); texts is built over
ax.texts + [ax.xaxis.label, ax.yaxis.label, ax.title]; grids is the single
aggregate [D3Grid(self, ax)]. -/
def D3Axes.build (figid : String) (i : ℕ) (ax : AxesInput) : D3Axes :=
  let axid := figid ++ Nat.repr i
  { axid := axid
    xlim := ax.xlim
    ylim := ax.ylim
    bbox := ax.bbox
    tickLabelSizes := ax.tickLabelSizes
    lines := ax.lines.enum.map (fun p => D3Line2D.build axid (p.1 + 1) p.2)
    texts := ax.texts.map (fun t => { text := t, isYLabel := false }) ++
      [{ text := ax.xlabel, isYLabel := false },
       { text := ax.ylabel, isYLabel := true },
       { text := ax.title, isYLabel := false }]
    grids := [{ axid := axid
                xGridOn := ax.xGridOn
                yGridOn := ax.yGridOn
                xGridlines := ax.xGridlines
                yGridlines := ax.yGridlines }] }

/-- Constructor of D3Figure: axes enumerates fig.axes with
D3Axes(self, ax, i + 1). -/
def D3Figure.build (figid : String) (fig : FigureInput) : D3Figure :=
  { figid := figid
    figwidth := fig.figwidth
    figheight := fig.figheight
    dpi := fig.dpi
    axes := fig.axes.enum.map (fun p => D3Axes.build figid (p.1 + 1) p.2) }

/-- Message of the warnings.warn call of D3Axes.__init__ for one
unsupported attribute. -/
def warnMsg (attr : String) : String :=
  attr ++ " not implemented.  Elements will be ignored"

/-- Message of the warnings.warn call of D3Axes.__init__ for a legend. -/
def legendMsg : String := "legend is not implemented: it will be ignored"

/-- Warnings emitted through warnings.warn while D3Axes.__init__ runs: the
loop over images, collections, containers, artists, patches, tables warns
once per attribute whose collection is non-empty, in that order, and a
final check warns when ax.legend_ is not None.  This models the Python
warnings channel as an explicit output list. -/
def D3Axes.warnings (ax : AxesInput) : List String :=
  (if 0 < ax.images then [warnMsg "images"] else []) ++
  (if 0 < ax.collections then [warnMsg "collections"] else []) ++
  (if 0 < ax.containers then [warnMsg "containers"] else []) ++
  (if 0 < ax.artists then [warnMsg "artists"] else []) ++
  (if 0 < ax.patches then [warnMsg "patches"] else []) ++
  (if 0 < ax.tables then [warnMsg "tables"] else []) ++
  (if ax.hasLegend then [legendMsg] else [])

/-- Warnings emitted while D3Figure.__init__ builds its axes, in axes
order. -/
def D3Figure.warnings (fig : FigureInput) : List String :=
  fig.axes.flatMap D3Axes.warnings

/-- Literal list of sentinel values treated as absent by D3Line2D.has_line
and D3Line2D.has_points: the source tests
get_linestyle() not in [two quoted strings, two None spellings, None],
that is the empty string, the single-space string, the two exact spellings
of the word none that appear in the source, and Python None. -/
def noneSentinels : List (Option String) :=
  [some "", some " ", some "None", some "none", none]

/-- D3Line2D.has_line: the line style is none of the sentinel values. -/
def D3Line2D.has_line (m : D3Line2D) : Bool :=
  !(noneSentinels.contains m.line.linestyle)

/-- D3Line2D.has_points: the marker is none of the sentinel values. -/
def D3Line2D.has_points (m : D3Line2D) : Bool :=
  !(noneSentinels.contains m.line.marker)

/-- Axis selector: the x or y member of a template pair. -/
inductive XY where
  | x
  | y
deriving DecidableEq

/-- One emitted template block of the generated d3.js program.  Each
constructor models one block of a source template, carrying the values the
source interpolates into that block:
defineScale models the d3.scale.linear() definitions of AXES_TEMPLATE
(domain from the axes limits, range from the pixel width or height);
defineZoomBehavior, appendAxesGroup, appendBackground, drawAxis and
appendClip model the remaining fixed blocks of AXES_TEMPLATE;
defineData, appendMarkers and appendLinePath model DATA_TEMPLATE,
POINTS_TEMPLATE and LINE_TEMPLATE of D3Line2D.html;
appendGridLines models XGRID_TEMPLATE and YGRID_TEMPLATE of D3Grid.html;
appendText models TEXT_TEMPLATE of D3Text.html;
callAxisTicks models the two select(axis).call(...) lines at the top of
the zoomed function of AXES_TEMPLATE;
regenGridTicks models XZOOM and YZOOM of D3Grid.zoom;
setAttr models LINE_ZOOM and POINTS_ZOOM of D3Line2D.zoom, recording the
selection and the single attribute those blocks set. -/
inductive Stmt where
  | defineScale (ax : XY) (axid : String) (domain : ℚ × ℚ) (range : ℚ × ℚ)
  | defineZoomBehavior (axid : String)
  | appendAxesGroup (axid : String) (translate : ℚ × ℚ) (width height : ℚ)
  | appendBackground (axid : String) (width height : ℚ) (fill : String)
  | drawAxis (ax : XY) (axid : String)
  | appendClip (axid : String) (width height : ℚ)
  | defineData (lineid : String) (data : List (ℚ × ℚ))
  | appendLinePath (lineid : String)
  | appendMarkers (lineid : String) (shape : String) (size : ℚ)
  | appendGridLines (ax : XY) (axid : String)
  | appendText (content : String) (x y fontsize rotation : ℚ)
      (fill : String) (anchor : String)
  | callAxisTicks (ax : XY) (axid : String)
  | regenGridTicks (ax : XY) (axid : String)
  | setAttr (selector : String) (attr : String)
deriving DecidableEq

/-- Modelled from the spec: get_d3_shape_for_marker lives in mpld3/_utils.py,
which is not part of the given source; the source comment at the call site
documents that markers are currently drawn as circles, and the spec allows
unsupported marker glyphs to fall back to a default glyph. -/
def markerShape (_marker : String) : String := "circle"

/-- D3Line2D.zoom: POINTS_ZOOM (when has_points) then LINE_ZOOM (when
has_line); POINTS_ZOOM sets the transform attribute of the points
selection, LINE_ZOOM sets the d attribute of the line path. -/
def D3Line2D.zoom (axid : String) (m : D3Line2D) : List Stmt :=
  (if m.has_points then
    [Stmt.setAttr ("axes_" ++ axid ++ " .points" ++ m.lineid) "transform"]
   else []) ++
  (if m.has_line then
    [Stmt.setAttr ("axes_" ++ axid ++ " .line" ++ m.lineid) "d"]
   else [])

/-- D3Grid.zoom: XZOOM when the x major-grid flag is on, then YZOOM when
the y major-grid flag is on. -/
def D3Grid.zoom (g : D3Grid) : List Stmt :=
  (if g.xGridOn then [Stmt.regenGridTicks XY.x g.axid] else []) ++
  (if g.yGridOn then [Stmt.regenGridTicks XY.y g.axid] else [])

/-- D3Text has no zoom override, so it inherits D3Base.zoom, which returns
the empty string: no update instructions. -/
def D3Text.zoom (_t : D3Text) : List Stmt := []

/-- D3Line2D.html: DATA_TEMPLATE, then POINTS_TEMPLATE when has_points
(with shape from get_d3_shape_for_marker and size 10 * markersize), then
LINE_TEMPLATE when has_line. -/
def D3Line2D.html (m : D3Line2D) : List Stmt :=
  [Stmt.defineData m.lineid m.line.xydata] ++
  (if m.has_points then
    [Stmt.appendMarkers m.lineid (markerShape ((m.line.marker).getD ""))
      (10 * m.line.markersize)]
   else []) ++
  (if m.has_line then [Stmt.appendLinePath m.lineid] else [])

/-- D3Grid.html: XGRID_TEMPLATE when the x major-grid flag is on, then
YGRID_TEMPLATE when the y major-grid flag is on. -/
def D3Grid.html (g : D3Grid) : List Stmt :=
  (if g.xGridOn then [Stmt.appendGridLines XY.x g.axid] else []) ++
  (if g.yGridOn then [Stmt.appendGridLines XY.y g.axid] else [])

/-- D3Text.html: the empty string when the content is empty, else
TEXT_TEMPLATE with the y-label x offset by the font size and the rotation
negated. -/
def D3Text.html (t : D3Text) : List Stmt :=
  if t.text.content = "" then []
  else
    [Stmt.appendText t.text.content
      (t.text.x + (if t.isYLabel then t.text.fontsize else 0))
      t.text.y t.text.fontsize (-(t.text.rotation)) t.text.color "middle"]

/-- Tagged union of the renderable children of an axes, as concatenated by
D3Axes.html. -/
inductive D3Element where
  | grid (g : D3Grid)
  | line (l : D3Line2D)
  | text (t : D3Text)
deriving DecidableEq

/-- The element list D3Axes.html iterates over, in its source order:
self.grids + self.lines + self.texts (used for both the elements block and
the element_zooms block). -/
def D3Axes.elements (a : D3Axes) : List D3Element :=
  a.grids.map D3Element.grid ++ a.lines.map D3Element.line ++
    a.texts.map D3Element.text

/-- Dispatch of elem.html() over the tagged union. -/
def D3Element.html : D3Element → List Stmt
  | .grid g => g.html
  | .line l => l.html
  | .text t => t.html

/-- Dispatch of elem.zoom() over the tagged union. -/
def D3Element.zoom (axid : String) : D3Element → List Stmt
  | .grid g => g.zoom
  | .line l => l.zoom axid
  | .text t => t.zoom

/-- Body of the zoomed function defined by AXES_TEMPLATE: re-call the x
axis, re-call the y axis, then the element_zooms block, which D3Axes.html
computes by joining elem.zoom() over self.grids + self.lines + self.texts. -/
def D3Axes.zoomed (a : D3Axes) : List Stmt :=
  [Stmt.callAxisTicks XY.x a.axid, Stmt.callAxisTicks XY.y a.axid] ++
  a.elements.flatMap (D3Element.zoom a.axid)

/-- Fixed prefix of AXES_TEMPLATE before the elements block, with
width = bbox[2] * figwidth and height = bbox[3] * figheight: the two
linear scales (x over [0, width], y over [height, 0]), the zoom behavior,
the axes group, the background rectangle, the two drawn axes and the clip
boundary. -/
def D3Axes.setup (figwidth figheight : ℚ) (a : D3Axes) : List Stmt :=
  let width := a.bbox.w * figwidth
  let height := a.bbox.h * figheight
  [Stmt.defineScale XY.x a.axid a.xlim (0, width),
   Stmt.defineScale XY.y a.axid a.ylim (height, 0),
   Stmt.defineZoomBehavior a.axid,
   Stmt.appendAxesGroup a.axid
     (a.bbox.x0 * figwidth, (1 - a.bbox.y0 - a.bbox.h) * figheight)
     width height,
   Stmt.appendBackground a.axid width height "#FCFCFC",
   Stmt.drawAxis XY.x a.axid,
   Stmt.drawAxis XY.y a.axid,
   Stmt.appendClip a.axid width height]

/-- D3Axes.html: AXES_TEMPLATE instantiated for this axes — the fixed setup
prefix followed by the elements block (elem.html() joined over
self.grids + self.lines + self.texts).  The zoomed function the template
also defines is modelled by D3Axes.zoomed. -/
def D3Axes.html (figwidth figheight : ℚ) (a : D3Axes) : List Stmt :=
  D3Axes.setup figwidth figheight a ++ a.elements.flatMap D3Element.html

/-- D3Figure.html: the axes blocks joined in axes order, with the pixel
figure dimensions figwidth * dpi and figheight * dpi of FIGURE_TEMPLATE. -/
def D3Figure.html (f : D3Figure) : List Stmt :=
  f.axes.flatMap (D3Axes.html (f.figwidth * f.dpi) (f.figheight * f.dpi))

/-- One emitted CSS rule block: axesBase models the STYLE template of
D3Axes, grid models the STYLE template of D3Grid, line models the STYLE
template of D3Line2D (whose format call also receives a markersize value
that the template text never uses). -/
inductive StyleRule where
  | axesBase (figid axid : String) (fontsize : ℚ)
  | grid (figid : String) (color : String) (alpha : Option ℚ)
      (dasharray : String)
  | line (figid lineid : String) (color : String) (width : ℚ)
      (dasharray : String) (alpha : ℚ) (markeredgewidth : ℚ)
      (markeredgecolor markercolor : String)
deriving DecidableEq

/-- D3Grid.style: reads gridlines = xaxis.get_gridlines() +
yaxis.get_gridlines() and then, unconditionally, gridlines[0]; an empty
combined list makes that subscript raise IndexError, modelled as none.
Otherwise the rule samples the first gridline.  The color and dasharray
conversions (color_to_hex, get_dasharray) live in _utils, outside the given
source, and are modelled as carrying the sampled gridline values. -/
def D3Grid.style (figid : String) (g : D3Grid) : Option StyleRule :=
  match g.xGridlines ++ g.yGridlines with
  | [] => none
  | gl :: _ => some (StyleRule.grid figid gl.color gl.alpha gl.dasharray)

/-- D3Line2D.style: alpha falls back to 1 when get_alpha() is None; the
remaining attributes are read from the line. -/
def D3Line2D.style (figid : String) (m : D3Line2D) : StyleRule :=
  StyleRule.line figid m.lineid m.line.color m.line.linewidth
    m.line.dasharray ((m.line.alpha).getD 1) m.line.markeredgewidth
    m.line.markeredgecolor m.line.markerfacecolor

/-- D3Axes.style: font size 11 when there are no tick labels, else the
size of the first tick label; then the axes STYLE block, the grid styles,
the line styles and the text styles (D3Text inherits D3Base.style, the
empty string, contributing no rule).  A grid style failure (IndexError)
propagates, modelled by Option. -/
def D3Axes.style (figid : String) (a : D3Axes) : Option (List StyleRule) :=
  let fontsize : ℚ := match a.tickLabelSizes with
    | [] => 11
    | s :: _ => s
  (a.grids.mapM (D3Grid.style figid)).map (fun gs =>
    [StyleRule.axesBase figid a.axid fontsize] ++ gs ++
      a.lines.map (D3Line2D.style figid))

/-- D3Figure.style: the joined axes styles; an IndexError in any axes
makes the whole figure style computation fail. -/
def D3Figure.style (f : D3Figure) : Option (List StyleRule) :=
  (f.axes.mapM (D3Axes.style f.figid)).map List.flatten

/-- Modelled from the spec: the apply operation of the linear scale that
AXES_TEMPLATE builds with d3.scale.linear().domain(...).range(...); d3.js
is an external script loaded by D3_IMPORT, not part of the given source.
The spec defines apply as linear interpolation
r0 + (value - d0) / (d1 - d0) * (r1 - r0). -/
def Scale.apply (d0 d1 r0 r1 v : ℚ) : ℚ :=
  r0 + (v - d0) / (d1 - d0) * (r1 - r0)

/-- Attribute names that the generated style sheets control: an update
instruction touching one of these would alter style. -/
def styleAttrNames : List String :=
  ["stroke", "stroke-width", "stroke-dasharray", "stroke-opacity",
   "fill", "fill-opacity", "font-size", "font-family"]

/-- Whether an emitted block writes a style attribute: among the zoom-time
blocks only a setAttr of a style attribute name would; among the
initial-draw blocks the background rectangle writes fill and TEXT_TEMPLATE
writes font-size and fill. -/
def Stmt.altersStyle : Stmt → Bool
  | .setAttr _ attr => styleAttrNames.contains attr
  | .appendBackground _ _ _ _ => true
  | .appendText _ _ _ _ _ _ _ => true
  | _ => false

/-- Whether an emitted block defines or rewrites a data array: only
DATA_TEMPLATE (defineData) does. -/
def Stmt.definesData : Stmt → Bool
  | .defineData _ _ => true
  | _ => false

/-- Whether an emitted block is a pure geometry recomputation from the
current scales: a setAttr of the d attribute (path geometry) or the
transform attribute (point positions), a re-call of an axis tick renderer,
or a regeneration of grid ticks. -/
def Stmt.isGeometryUpdate : Stmt → Bool
  | .setAttr _ attr => attr == "d" || attr == "transform"
  | .callAxisTicks _ _ => true
  | .regenGridTicks _ _ => true
  | _ => false

/-- Whether an emitted block is the tick rebuild of a main axis (the
select(".x.axis") / select(".y.axis") calls of the zoomed function). -/
def Stmt.isTickRebuild : Stmt → Bool
  | .callAxisTicks _ _ => true
  | _ => false

/-- Removes the unsupported-content children of an axes snapshot (the
collections D3Axes.__init__ only warns about) without touching the drawable
content. -/
def AxesInput.stripUnsupported (ax : AxesInput) : AxesInput :=
  { ax with
    images := 0
    collections := 0
    containers := 0
    artists := 0
    patches := 0
    tables := 0
    hasLegend := false }

/-- Sample line snapshot with the given line style and marker. -/
def exLine (ls mk : Option String) : LineInput :=
  { linestyle := ls
    marker := mk
    xydata := [(0, 0), (1, 1)]
    color := "#0000FF"
    linewidth := 1
    alpha := none
    markersize := 6
    markerfacecolor := "#0000FF"
    markeredgecolor := "#000000"
    markeredgewidth := 1
    dasharray := "10,0" }

/-- Sample text snapshot with the given content. -/
def exText (c : String) : TextInput :=
  { content := c, x := 1, y := 2, fontsize := 12, color := "#000000",
    rotation := 0 }

/-- Sample gridline snapshot. -/
def exGridline : GridlineInput :=
  { color := "#CCCCCC", alpha := some 1, dasharray := "2,3" }

/-- Sample axes snapshot: one solid line, one explicit text entry, x grid
off, y grid on with one y gridline, no unsupported content. -/
def exAxes : AxesInput :=
  { lines := [exLine (some "-") none]
    texts := [exText "note"]
    xlabel := exText "xlab"
    ylabel := exText "ylab"
    title := exText "ttl"
    xlim := (0, 1)
    ylim := (0, 1)
    bbox := { x0 := 0, y0 := 0, w := 1, h := 1 }
    xGridOn := false
    yGridOn := true
    xGridlines := []
    yGridlines := [exGridline]
    tickLabelSizes := []
    images := 0
    collections := 0
    containers := 0
    artists := 0
    patches := 0
    tables := 0
    hasLegend := false }

/-- Sample axes snapshot with a degenerate x domain (both limits 1). -/
def degenAxes : AxesInput := { exAxes with xlim := (1, 1) }

/-- Sample axes snapshot with no gridline objects on either axis. -/
def noGridAxes : AxesInput := { exAxes with yGridlines := [] }

/-- Sample grid element with x grid off and y grid on. -/
def exGrid : D3Grid :=
  { axid := "f1", xGridOn := false, yGridOn := true, xGridlines := [],
    yGridlines := [exGridline] }

/-- Sample figure snapshot with two axes. -/
def exFig : FigureInput :=
  { figwidth := 8, figheight := 6, dpi := 1, axes := [exAxes, exAxes] }

/-- Sample figure snapshot with one axes. -/
def exFig1 : FigureInput :=
  { figwidth := 1, figheight := 1, dpi := 1, axes := [exAxes] }

/-- Sample figure snapshot whose single axes has no gridline objects. -/
def exFigNoGrid : FigureInput :=
  { figwidth := 1, figheight := 1, dpi := 1, axes := [noGridAxes] }

/-- Membership in a conditional singleton list. -/
lemma mem_if_singleton {α : Type} (c : Prop) [Decidable c] (x m : α) :
    (x ∈ if c then [m] else []) ↔ c ∧ x = m := by
  split
  · simp [*]
  · simp [*]

/-- A failing element makes the whole Option-valued mapM fail. -/
lemma mapM_eq_none {α β : Type} (fn : α → Option β) :
    ∀ (l : List α) (a : α), a ∈ l → fn a = none → l.mapM fn = none := by
  intro l
  induction l with
  | nil => simp
  | cons x xs ih =>
    intro a ha hfa
    rw [List.mapM_cons]
    rcases List.mem_cons.mp ha with rfl | h
    · simp [hfa]
    · simp only [ih a h hfa]
      cases hx : fn x <;> simp [hx]

/-- Nat.toDigitsCore at base 10 with enough fuel produces the reversed
decimal digits (as characters) in front of the accumulator. -/
lemma toDigitsCore_eq_digits (f : ℕ) : ∀ (n : ℕ), 0 < n → n < f →
    ∀ (acc : List Char),
    Nat.toDigitsCore 10 f n acc =
      ((Nat.digits 10 n).map Nat.digitChar).reverse ++ acc := by
  induction f with
  | zero => intro n _ h; omega
  | succ f ih =>
    intro n hn hf acc
    rw [Nat.toDigitsCore]
    by_cases h10 : n / 10 = 0
    · have hlt : n < 10 := (Nat.div_eq_zero_iff (by norm_num)).mp h10
      simp only [h10, if_true]
      rw [Nat.digits_def' (by norm_num : (1:ℕ) < 10) hn, h10, Nat.digits_zero,
        Nat.mod_eq_of_lt hlt]
      simp
    · simp only [h10, if_false]
      have hpos : 0 < n / 10 := Nat.pos_of_ne_zero h10
      have hlt : n / 10 < n := Nat.div_lt_self hn (by norm_num)
      rw [ih (n / 10) hpos (by omega) _]
      rw [Nat.digits_def' (by norm_num : (1:ℕ) < 10) hn]
      simp [List.reverse_cons]

/-- Nat.repr of a positive number is the reversed character image of its
decimal digits. -/
lemma nat_repr_eq (n : ℕ) (hn : 0 < n) :
    Nat.repr n = (((Nat.digits 10 n).map Nat.digitChar).reverse).asString := by
  rw [Nat.repr, Nat.toDigits, toDigitsCore_eq_digits (n + 1) n hn (by omega) []]
  simp

/-- Nat.digitChar is injective below base 10. -/
lemma digitChar_inj (a b : ℕ) (ha : a < 10) (hb : b < 10)
    (h : Nat.digitChar a = Nat.digitChar b) : a = b := by
  interval_cases a <;> interval_cases b <;>
    first
      | rfl
      | (exfalso; revert h; decide)

/-- Mapping Nat.digitChar over digit lists below 10 is injective. -/
lemma map_digitChar_inj : ∀ (l1 l2 : List ℕ), (∀ d ∈ l1, d < 10) →
    (∀ d ∈ l2, d < 10) →
    l1.map Nat.digitChar = l2.map Nat.digitChar → l1 = l2 := by
  intro l1
  induction l1 with
  | nil =>
    intro l2 _ _ h
    cases l2 with
    | nil => rfl
    | cons y ys => simp at h
  | cons x xs ih =>
    intro l2 h1 h2 h
    cases l2 with
    | nil => simp at h
    | cons y ys =>
      simp only [List.map_cons, List.cons.injEq] at h
      have hx := digitChar_inj x y (h1 x (by simp)) (h2 y (by simp)) h.1
      have := ih ys (fun d hd => h1 d (by simp [hd]))
        (fun d hd => h2 d (by simp [hd])) h.2
      simp [hx, this]

/-- List.asString is injective. -/
lemma asString_inj (l1 l2 : List Char) (h : l1.asString = l2.asString) :
    l1 = l2 := by
  have := congrArg String.data h
  simpa [List.asString] using this

/-- Every decimal digit is below 10. -/
lemma digits_lt_ten (n : ℕ) : ∀ d ∈ Nat.digits 10 n, d < 10 :=
  fun _ hd => Nat.digits_lt_base (by norm_num) hd

/-- Nat.repr of a positive number differs from Nat.repr 0. -/
lemma repr_pos_ne_repr_zero (b : ℕ) (hb : 0 < b) :
    Nat.repr b ≠ Nat.repr 0 := by
  intro h
  rw [nat_repr_eq b hb] at h
  have h0 : Nat.repr 0 = (['0'] : List Char).asString := rfl
  rw [h0] at h
  have hd := asString_inj _ _ h
  have hrev : (Nat.digits 10 b).map Nat.digitChar = ['0'] := by
    have := congrArg List.reverse hd
    simpa using this
  have h1 : ('0' : Char) = Nat.digitChar 0 := rfl
  rw [h1] at hrev
  have h2 : (Nat.digits 10 b).map Nat.digitChar =
      ([0] : List ℕ).map Nat.digitChar := by simpa using hrev
  have h3 := map_digitChar_inj _ _ (digits_lt_ten b)
    (by intro d hd; simp at hd; omega) h2
  have h4 := Nat.ofDigits_digits 10 b
  rw [h3] at h4
  simp [Nat.ofDigits] at h4
  omega

/-- Nat.repr is injective: distinct numbers have distinct decimal
strings. -/
lemma nat_repr_injective : Function.Injective Nat.repr := by
  intro a b h
  rcases Nat.eq_zero_or_pos a with ha | ha <;>
    rcases Nat.eq_zero_or_pos b with hb | hb
  · omega
  · exact absurd h.symm (by subst ha; exact repr_pos_ne_repr_zero b hb)
  · exact absurd h (by subst hb; exact repr_pos_ne_repr_zero a ha)
  · rw [nat_repr_eq a ha, nat_repr_eq b hb] at h
    have hd := asString_inj _ _ h
    have hrev := List.reverse_injective hd
    have hmap := map_digitChar_inj _ _ (digits_lt_ten a) (digits_lt_ten b) hrev
    rw [← Nat.ofDigits_digits 10 a, ← Nat.ofDigits_digits 10 b, hmap]

/-- Appending on the left of a fixed string is cancellative. -/
lemma string_append_left_cancel (s a b : String) (h : s ++ a = s ++ b) :
    a = b := by
  apply String.ext
  have := congrArg String.data h
  rw [String.data_append, String.data_append] at this
  exact List.append_cancel_left this

/-- C3, counterexample: the claim says any-case variants of the token none,
such as NONE, and whitespace strings generally count as absent, making
hasLine and hasPoints false there; the source tests membership in the
literal list with only the two spellings None and none and only the
single-space string, so a line whose style and marker are both NONE has
has_line and has_points true, and a two-space line style also gives
has_line true. -/
theorem C3_counterexample :
    (D3Line2D.build "f1" 1 (exLine (some "NONE") (some "NONE"))).has_line
        = true ∧
    (D3Line2D.build "f1" 1 (exLine (some "NONE") (some "NONE"))).has_points
        = true ∧
    (D3Line2D.build "f1" 1 (exLine (some "  ") none)).has_line = true := by
  refine ⟨rfl, rfl, rfl⟩

/-- C3, amended: has_line is false exactly when the line style is one of
the five literal sentinel values of the source — the empty string, the
single-space string, the exact spellings None and none, or the absent
sentinel — and has_points applies the identical five-literal rule to the
marker attribute; other casings such as NONE and other whitespace strings
count as present. -/
theorem C3_absence_sentinels (m : D3Line2D) :
    (m.has_line = false ↔
      (m.line.linestyle = some "" ∨ m.line.linestyle = some " " ∨
       m.line.linestyle = some "None" ∨ m.line.linestyle = some "none" ∨
       m.line.linestyle = none)) ∧
    (m.has_points = false ↔
      (m.line.marker = some "" ∨ m.line.marker = some " " ∨
       m.line.marker = some "None" ∨ m.line.marker = some "none" ∨
       m.line.marker = none)) := by
  constructor <;>
    (simp [D3Line2D.has_line, D3Line2D.has_points, noneSentinels]; tauto)

/-- C4: for every scale built from a domain (d0, d1) with d0 < d1 and a
range (r0, r1), apply is the linear interpolation
r0 + (value - d0) / (d1 - d0) * (r1 - r0); it maps d0 exactly to r0 and d1
exactly to r1, and maps the domain midpoint exactly (hence within any
tolerance) to the range midpoint.  The scale semantics is modelled from
the spec because d3.js is external to the given source. -/
theorem C4_scale_linear (d0 d1 r0 r1 : ℚ) (h : d0 < d1) :
    (∀ v, Scale.apply d0 d1 r0 r1 v = r0 + (v - d0) / (d1 - d0) * (r1 - r0)) ∧
    Scale.apply d0 d1 r0 r1 d0 = r0 ∧
    Scale.apply d0 d1 r0 r1 d1 = r1 ∧
    Scale.apply d0 d1 r0 r1 ((d0 + d1) / 2) = (r0 + r1) / 2 := by
  have hne : d1 - d0 ≠ 0 := sub_ne_zero.mpr h.ne'
  refine ⟨fun v => rfl, ?_, ?_, ?_⟩ <;>
    (unfold Scale.apply; field_simp; try ring)

/-- C4, witness at the concrete scale with domain (0, 2) and range
(10, 20). -/
theorem C4_witness :
    (0 : ℚ) < 2 ∧ Scale.apply 0 2 10 20 0 = 10 ∧
      Scale.apply 0 2 10 20 2 = 20 ∧
      Scale.apply 0 2 10 20 ((0 + 2) / 2) = (10 + 20) / 2 :=
  ⟨by norm_num, (C4_scale_linear 0 2 10 20 (by norm_num)).2.1,
    (C4_scale_linear 0 2 10 20 (by norm_num)).2.2.1,
    (C4_scale_linear 0 2 10 20 (by norm_num)).2.2.2⟩

/-- C1, counterexample: the claim says scene-graph construction for an
axes with a degenerate domain (both x limits equal) fails with a
DegenerateDomainError; in the source nothing guards the limits — building
the axes and rendering its template succeed, the emitted linear x scale
carries the degenerate domain (1, 1), and no diagnostic of any kind is
produced. -/
theorem C1_counterexample :
    Stmt.defineScale XY.x "f1" (1, 1) (0, 1) ∈
      D3Axes.html 1 1 (D3Axes.build "f" 1 degenAxes) ∧
    D3Axes.warnings degenAxes = [] := by
  constructor
  · have hid : ("f" ++ Nat.repr 1) = "f1" := rfl
    simp [D3Axes.html, D3Axes.setup, D3Axes.build, degenAxes, exAxes, hid]
  · rfl

/-- C1, amended: scene-graph construction does not guard degenerate
domains; for every axes whose x (or y) limits are equal, construction and
rendering succeed, and the emitted d3.scale.linear definition carries a
domain with both endpoints equal, leaving the division by zero to the
client-side scale. -/
theorem C1_degenerate_unguarded (figid : String) (i : ℕ)
    (figwidth figheight : ℚ) (ax : AxesInput) :
    (ax.xlim.1 = ax.xlim.2 →
      Stmt.defineScale XY.x (figid ++ Nat.repr i) (ax.xlim.1, ax.xlim.1)
          (0, ax.bbox.w * figwidth) ∈
        D3Axes.html figwidth figheight (D3Axes.build figid i ax)) ∧
    (ax.ylim.1 = ax.ylim.2 →
      Stmt.defineScale XY.y (figid ++ Nat.repr i) (ax.ylim.1, ax.ylim.1)
          (ax.bbox.h * figheight, 0) ∈
        D3Axes.html figwidth figheight (D3Axes.build figid i ax)) := by
  constructor
  · intro hx
    have hpair : (ax.xlim.1, ax.xlim.1) = ax.xlim := Prod.ext rfl hx
    rw [hpair]
    simp [D3Axes.html, D3Axes.setup, D3Axes.build]
  · intro hy
    have hpair : (ax.ylim.1, ax.ylim.1) = ax.ylim := Prod.ext rfl hy
    rw [hpair]
    simp [D3Axes.html, D3Axes.setup, D3Axes.build]

/-- C1, witness: the amended statement applied to the concrete degenerate
axes snapshot. -/
theorem C1_witness :
    degenAxes.xlim.1 = degenAxes.xlim.2 ∧
    Stmt.defineScale XY.x ("f" ++ Nat.repr 1)
        (degenAxes.xlim.1, degenAxes.xlim.1) (0, degenAxes.bbox.w * 1) ∈
      D3Axes.html 1 1 (D3Axes.build "f" 1 degenAxes) :=
  ⟨rfl, (C1_degenerate_unguarded "f" 1 1 1 degenAxes).1 rfl⟩

/-- C2: for every zoom event delivered to an axes, the zoomed handler
rebuilds the x-axis and y-axis tick rendering strictly before any element
update runs (every tick-rebuild instruction sits at an index below every
element-update instruction, and no tick rebuild occurs among the element
updates), and the element updates are generated by joining elem.zoom over
exactly the same element list, in the same order, that the elements block
of the initial draw joins elem.html over. -/
theorem C2_zoom_tick_order (figwidth figheight : ℚ) (a : D3Axes) :
    a.zoomed =
      [Stmt.callAxisTicks XY.x a.axid, Stmt.callAxisTicks XY.y a.axid] ++
        a.elements.flatMap (D3Element.zoom a.axid) ∧
    (∀ s ∈ a.elements.flatMap (D3Element.zoom a.axid),
      s.isTickRebuild = false) ∧
    (∀ (k : ℕ) (s : Stmt), a.zoomed.get? k = some s →
      s.isTickRebuild = true → k < 2) ∧
    D3Axes.html figwidth figheight a =
      D3Axes.setup figwidth figheight a ++
        a.elements.flatMap D3Element.html := by
  have hmem : ∀ s ∈ a.elements.flatMap (D3Element.zoom a.axid),
      s.isTickRebuild = false := by
    intro s hs
    obtain ⟨e, _, hse⟩ := List.mem_flatMap.mp hs
    cases e with
    | grid g =>
      rcases List.mem_append.mp hse with h | h <;>
        rcases (mem_if_singleton _ _ _).mp h with ⟨_, rfl⟩ <;> rfl
    | line l =>
      rcases List.mem_append.mp hse with h | h <;>
        rcases (mem_if_singleton _ _ _).mp h with ⟨_, rfl⟩ <;> rfl
    | text t => simp [D3Element.zoom, D3Text.zoom] at hse
  refine ⟨rfl, hmem, ?_, rfl⟩
  intro k s hk ht
  by_contra hlt
  push_neg at hlt
  obtain ⟨m, rfl⟩ : ∃ m, k = m + 2 := ⟨k - 2, by omega⟩
  have hk' : (a.elements.flatMap (D3Element.zoom a.axid)).get? m = some s := hk
  have := hmem s (List.get?_mem hk')
  rw [ht] at this
  exact absurd this (by simp)

/-- C2, witness: the decomposition at a concrete built axes, plus one
concrete element-update instruction shown not to be a tick rebuild. -/
theorem C2_witness :
    (D3Axes.build "f" 1 exAxes).zoomed =
      [Stmt.callAxisTicks XY.x (D3Axes.build "f" 1 exAxes).axid,
       Stmt.callAxisTicks XY.y (D3Axes.build "f" 1 exAxes).axid] ++
        (D3Axes.build "f" 1 exAxes).elements.flatMap
          (D3Element.zoom (D3Axes.build "f" 1 exAxes).axid) ∧
    (Stmt.regenGridTicks XY.y "f1").isTickRebuild = false := by
  have h := C2_zoom_tick_order 1 1 (D3Axes.build "f" 1 exAxes)
  exact ⟨h.1, h.2.1 _ (by decide)⟩

/-- C5, counterexample: the claim says the diagnostic for an unsupported
child is returned in a structured list alongside the built scene graph
rather than emitted through a side channel; in the source the built axes
object is bit-for-bit the same with or without an image child — the
diagnostic exists only in the warnings.warn channel (modelled as the
separate D3Axes.warnings output), so no diagnostics travel with the built
scene graph. -/
theorem C5_counterexample :
    D3Axes.build "f" 1 { exAxes with images := 1 } =
      D3Axes.build "f" 1 exAxes ∧
    D3Axes.warnings { exAxes with images := 1 } = [warnMsg "images"] ∧
    D3Axes.warnings exAxes = [] :=
  ⟨rfl, rfl, rfl⟩

/-- C5, amended: unsupported children are non-fatal — the built axes is
identical to one built with the unsupported content removed (the child is
omitted and the scene graph is complete), and for each unsupported kind
present exactly one warning naming that kind is emitted through the
warnings side channel (warnings.warn), the legend case included. -/
theorem C5_unsupported_nonfatal (figid : String) (i : ℕ) (ax : AxesInput) :
    D3Axes.build figid i ax = D3Axes.build figid i ax.stripUnsupported ∧
    (warnMsg "images" ∈ D3Axes.warnings ax ↔ 0 < ax.images) ∧
    (warnMsg "collections" ∈ D3Axes.warnings ax ↔ 0 < ax.collections) ∧
    (warnMsg "containers" ∈ D3Axes.warnings ax ↔ 0 < ax.containers) ∧
    (warnMsg "artists" ∈ D3Axes.warnings ax ↔ 0 < ax.artists) ∧
    (warnMsg "patches" ∈ D3Axes.warnings ax ↔ 0 < ax.patches) ∧
    (warnMsg "tables" ∈ D3Axes.warnings ax ↔ 0 < ax.tables) ∧
    (legendMsg ∈ D3Axes.warnings ax ↔ ax.hasLegend = true) := by
  refine ⟨rfl, ?_, ?_, ?_, ?_, ?_, ?_, ?_⟩ <;>
    simp [D3Axes.warnings, mem_if_singleton, warnMsg, legendMsg]

/-- C6, counterexample: the claim says the element list puts lines first,
then texts, then exactly one grid appended last, with later elements drawn
on top; in the source D3Axes.html iterates self.grids + self.lines +
self.texts, so for a concrete axes with one line the aggregate grid is the
first element (drawn at the bottom) and the last element is the title text,
not the grid. -/
theorem C6_counterexample :
    (D3Axes.build "f" 1 exAxes).elements.head? =
      some (D3Element.grid
        { axid := "f1"
          xGridOn := false
          yGridOn := true
          xGridlines := []
          yGridlines := [exGridline] }) ∧
    (D3Axes.build "f" 1 exAxes).elements.getLast? =
      some (D3Element.text { text := exText "ttl", isYLabel := false }) :=
  ⟨rfl, rfl⟩

/-- C6, amended: for every axes built from a plot snapshot, the element
list is, in order: the single aggregate Grid element first, then the
contained lines in source order, then the text set (explicit text entries
in source order, then the x-axis label, the y-axis label and the title,
each an independent Text element even if empty); this order drives both
the initial-draw block and the update-dispatch block of the zoomed
handler, so later elements are drawn on top and the grid is drawn at the
bottom, not on top. -/
theorem C6_element_order (figid : String) (i : ℕ) (figwidth figheight : ℚ)
    (ax : AxesInput) :
    (D3Axes.build figid i ax).elements =
      [D3Element.grid
        { axid := figid ++ Nat.repr i
          xGridOn := ax.xGridOn
          yGridOn := ax.yGridOn
          xGridlines := ax.xGridlines
          yGridlines := ax.yGridlines }] ++
      ax.lines.enum.map (fun p =>
        D3Element.line (D3Line2D.build (figid ++ Nat.repr i) (p.1 + 1) p.2)) ++
      (ax.texts.map (fun t => D3Element.text { text := t, isYLabel := false }) ++
        [D3Element.text { text := ax.xlabel, isYLabel := false },
         D3Element.text { text := ax.ylabel, isYLabel := true },
         D3Element.text { text := ax.title, isYLabel := false }]) ∧
    D3Axes.html figwidth figheight (D3Axes.build figid i ax) =
      D3Axes.setup figwidth figheight (D3Axes.build figid i ax) ++
        (D3Axes.build figid i ax).elements.flatMap D3Element.html ∧
    (D3Axes.build figid i ax).zoomed =
      [Stmt.callAxisTicks XY.x (figid ++ Nat.repr i),
       Stmt.callAxisTicks XY.y (figid ++ Nat.repr i)] ++
        (D3Axes.build figid i ax).elements.flatMap
          (D3Element.zoom (figid ++ Nat.repr i)) := by
  refine ⟨?_, rfl, rfl⟩
  simp [D3Axes.build, D3Axes.elements, List.map_map]
  rfl

/-- C7: every update instruction an element emits for a zoom event is a
pure geometry recomputation from the current scales (a path d attribute, a
point transform attribute, or a tick regeneration), never writes a style
attribute, and never defines or rewrites the raw point data. -/
theorem C7_update_geometry_only (axid : String) (e : D3Element) (s : Stmt)
    (hs : s ∈ D3Element.zoom axid e) :
    s.altersStyle = false ∧ s.definesData = false ∧
      s.isGeometryUpdate = true := by
  cases e with
  | grid g =>
    rcases List.mem_append.mp hs with h | h <;>
      rcases (mem_if_singleton _ _ _).mp h with ⟨_, rfl⟩ <;>
      exact ⟨rfl, rfl, rfl⟩
  | line l =>
    rcases List.mem_append.mp hs with h | h <;>
      rcases (mem_if_singleton _ _ _).mp h with ⟨_, rfl⟩ <;>
      exact ⟨rfl, rfl, rfl⟩
  | text t => simp [D3Element.zoom, D3Text.zoom] at hs

/-- C7, witness: the points-transform update of a concrete line with both
a stroke and markers. -/
theorem C7_witness :
    (Stmt.setAttr "axes_f1 .pointsf11" "transform").altersStyle = false ∧
    (Stmt.setAttr "axes_f1 .pointsf11" "transform").definesData = false ∧
    (Stmt.setAttr "axes_f1 .pointsf11" "transform").isGeometryUpdate
      = true :=
  C7_update_geometry_only "f1"
    (D3Element.line (D3Line2D.build "f1" 1 (exLine (some "-") (some "o"))))
    _ (by decide)

/-- C8: a Grid element emits initial gridline geometry for the x axis iff
the x major-grid flag is on and for the y axis iff the y major-grid flag
is on, the two flags being independent; with x off and y on the output is
exactly the y gridline block and nothing for x. -/
theorem C8_grid_flag_independence (g : D3Grid) :
    ((Stmt.appendGridLines XY.x g.axid ∈ g.html) ↔ g.xGridOn = true) ∧
    ((Stmt.appendGridLines XY.y g.axid ∈ g.html) ↔ g.yGridOn = true) ∧
    (g.xGridOn = false → g.yGridOn = true →
      g.html = [Stmt.appendGridLines XY.y g.axid]) := by
  unfold D3Grid.html
  cases hx : g.xGridOn <;> cases hy : g.yGridOn <;> simp [hx, hy]

/-- C8, witness: the concrete grid with x off and y on emits exactly the y
gridline block. -/
theorem C8_witness :
    (Stmt.appendGridLines XY.y exGrid.axid ∈ exGrid.html) ∧
    exGrid.html = [Stmt.appendGridLines XY.y exGrid.axid] := by
  have h := C8_grid_flag_independence exGrid
  exact ⟨h.2.1.mpr rfl, h.2.2 rfl rfl⟩

/-- C9: in every built figure, the axes at position i carries id
figid ++ str(i + 1) (the figure id concatenated with the 1-based
sequential index), distinct positions carry distinct axes ids (uniqueness
within the figure), and every line element of that axes carries id
axid ++ str(k + 1) for its 1-based local index; the ids are plain fields
assigned at construction, so they are fixed for the lifetime of the scene
graph. -/
theorem C9_ids (figid : String) (fig : FigureInput) (i j : ℕ)
    (hi : i < (D3Figure.build figid fig).axes.length)
    (hj : j < (D3Figure.build figid fig).axes.length) :
    ((D3Figure.build figid fig).axes[i]).axid = figid ++ Nat.repr (i + 1) ∧
    (i ≠ j →
      ((D3Figure.build figid fig).axes[i]).axid ≠
        ((D3Figure.build figid fig).axes[j]).axid) ∧
    (∀ (k : ℕ) (hk : k < ((D3Figure.build figid fig).axes[i]).lines.length),
      (((D3Figure.build figid fig).axes[i]).lines[k]).lineid =
        ((D3Figure.build figid fig).axes[i]).axid ++ Nat.repr (k + 1)) := by
  have h1 : ∀ (m : ℕ) (hm : m < (D3Figure.build figid fig).axes.length),
      ((D3Figure.build figid fig).axes[m]).axid =
        figid ++ Nat.repr (m + 1) := by
    intro m hm
    simp [D3Figure.build, D3Axes.build]
  refine ⟨h1 i hi, ?_, ?_⟩
  · intro hne heq
    rw [h1 i hi, h1 j hj] at heq
    have hrep := string_append_left_cancel figid _ _ heq
    have := nat_repr_injective hrep
    omega
  · intro k hk
    rw [h1 i hi]
    simp [D3Figure.build, D3Axes.build, D3Line2D.build] at hk ⊢

/-- C9, witness: the two-axes figure, at axes positions 0 and 1 and line
position 0. -/
theorem C9_witness :
    ((D3Figure.build "f" exFig).axes.get ⟨0, by decide⟩).axid =
      "f" ++ Nat.repr 1 ∧
    ((D3Figure.build "f" exFig).axes.get ⟨0, by decide⟩).axid ≠
      ((D3Figure.build "f" exFig).axes.get ⟨1, by decide⟩).axid ∧
    (((D3Figure.build "f" exFig).axes.get ⟨0, by decide⟩).lines.get
        ⟨0, by decide⟩).lineid =
      ((D3Figure.build "f" exFig).axes.get ⟨0, by decide⟩).axid ++
        Nat.repr 1 := by
  have h := C9_ids "f" exFig 0 1 (by decide) (by decide)
  exact ⟨h.1, h.2.1 (by decide), h.2.2 0 (by decide)⟩

/-- C10: grid style resolution unconditionally samples the first gridline
of the combined x-then-y gridline list — when that list is non-empty the
rule carries the first gridline's color, opacity and dash pattern; when it
is empty the subscript gridlines[0] fails (none), and the failure
propagates through the axes style to the whole figure's style
computation. -/
theorem C10_grid_style_samples_first (f : D3Figure) (a : D3Axes)
    (g : D3Grid) (ha : a ∈ f.axes) (hg : g ∈ a.grids) :
    (∀ (gl : GridlineInput) (rest : List GridlineInput),
      g.xGridlines ++ g.yGridlines = gl :: rest →
      D3Grid.style f.figid g =
        some (StyleRule.grid f.figid gl.color gl.alpha gl.dasharray)) ∧
    (g.xGridlines ++ g.yGridlines = [] →
      D3Grid.style f.figid g = none ∧
      D3Axes.style f.figid a = none ∧
      D3Figure.style f = none) := by
  constructor
  · intro gl rest hcons
    unfold D3Grid.style
    rw [hcons]
  · intro hnil
    have hgs : D3Grid.style f.figid g = none := by
      unfold D3Grid.style
      rw [hnil]
    have has : D3Axes.style f.figid a = none := by
      unfold D3Axes.style
      rw [mapM_eq_none (D3Grid.style f.figid) a.grids g hg hgs]
      rfl
    refine ⟨hgs, has, ?_⟩
    unfold D3Figure.style
    rw [mapM_eq_none (D3Axes.style f.figid) f.axes a ha has]
    rfl

/-- C10, witness: sampling succeeds on the grid with one y gridline, and
the whole figure style fails on the figure whose axes has no gridlines. -/
theorem C10_witness :
    D3Grid.style "f" exGrid =
      some (StyleRule.grid "f" "#CCCCCC" (some 1) "2,3") ∧
    D3Figure.style (D3Figure.build "f" exFigNoGrid) = none := by
  constructor
  · exact (C10_grid_style_samples_first (D3Figure.build "f" exFig1)
      ((D3Figure.build "f" exFig1).axes.get ⟨0, by decide⟩) exGrid
      (by decide) (by decide)).1 exGridline [] rfl
  · have h := C10_grid_style_samples_first (D3Figure.build "f" exFigNoGrid)
      ((D3Figure.build "f" exFigNoGrid).axes.get ⟨0, by decide⟩)
      (((D3Figure.build "f" exFigNoGrid).axes.get
        ⟨0, by decide⟩).grids.get ⟨0, by decide⟩)
      (by decide) (by decide)
    exact (h.2 rfl).2.2

end Mpld3
